import Mathlib

/-!
# TerraVision AI – verification of the specified core

Shallow embedding of the TerraVision AI core (tool-augmented agent loop,
provider clients, bbox/polygon utilities, rule-based intent parser) in
Lean 4, with theorems settling the frozen claims about the code.

Numbers that are IEEE doubles in the source are modelled as exact
rationals (`ℚ`); none of the verified operations perform arithmetic on
them beyond construction and comparison, so no rounding behaviour is
observable.  Thrown JavaScript exceptions are modelled as
`Except` error values carrying the message of the thrown `Error`
(`Option String`: `none` stands for a thrown non-`Error` value, which the
tool layer replaces by a per-tool fallback message).
-/

/- ----------------------------------------------------------------------
App bounding box, `src/lib/chat-parser` (src/unnamed/part_003)
---------------------------------------------------------------------- -/

/-- App-standard bounding box `[minLon, minLat, maxLon, maxLat]` (WGS84).
Models `type BBox = [number, number, number, number]`; the four array
slots are named fields here. -/
structure BBox where
  minLon : ℚ
  minLat : ℚ
  maxLon : ℚ
  maxLat : ℚ
deriving DecidableEq

/-- GeoJSON polygon: `type: "Polygon"` plus rings of `[lon, lat]` points.
A point `[lon, lat]` is modelled as a pair `(lon, lat)`. -/
structure GeoJsonPolygon where
  type : String
  coordinates : List (List (ℚ × ℚ))
deriving DecidableEq

/-- Embeds `bboxToPolygon` (part_003, lines 164–170): the single ring
lists the four corners counter-clockwise starting at the south-west
corner and closes back on it. -/
def bboxToPolygon (bbox : BBox) : GeoJsonPolygon :=
  { type := "Polygon"
    coordinates := [[(bbox.minLon, bbox.minLat), (bbox.maxLon, bbox.minLat),
                     (bbox.maxLon, bbox.maxLat), (bbox.minLon, bbox.maxLat),
                     (bbox.minLon, bbox.minLat)]] }

/- ----------------------------------------------------------------------
Nominatim geocoding client (src/unnamed/part_003, lines 1–93)
---------------------------------------------------------------------- -/

/-- Embeds `nominatimBboxToAppBbox` (part_003, lines 13–21).  The source
maps JavaScript `Number` over the four provider strings and throws
`"Invalid Nominatim bbox"` when any slot is `NaN`.  JavaScript numeric
string parsing is abstracted as the parameter `jsNumber`; a `none`
result stands for `NaN`.  Nominatim's slot order is
`[minLat, maxLat, minLon, maxLon]`; the result is the app order. -/
def nominatimBboxToAppBbox (jsNumber : String → Option ℚ)
    (bbox : String × String × String × String) : Except String BBox :=
  match jsNumber bbox.1, jsNumber bbox.2.1, jsNumber bbox.2.2.1, jsNumber bbox.2.2.2 with
  | some minLat, some maxLat, some minLon, some maxLon =>
      .ok { minLon := minLon, minLat := minLat, maxLon := maxLon, maxLat := maxLat }
  | _, _, _, _ => .error "Invalid Nominatim bbox"

/-- Result shape of a successful geocoder lookup (`LookupLocationResult`). -/
structure LookupLocationResult where
  displayName : String
  bbox : BBox
  placeId : String
deriving DecidableEq

/-- One entry of the Nominatim JSON array, as typed in the source
(part_003, lines 72–76): all fields optional, bounding box a list of
strings. -/
structure NominatimPlace where
  boundingbox : Option (List String)
  display_name : Option String
  place_id : Option String
deriving DecidableEq

/-- A provider HTTP response after the `fetch` resolves: `ok`/`status`
from the transport, `bodyText` what `res.text()` would yield, `json` the
parsed body (`res.json()`). -/
structure HttpResponse (α : Type) where
  ok : Bool
  status : Nat
  bodyText : String
  json : α

/-- Embeds the response handling of `lookupLocation` (part_003,
lines 60–92), everything after the `fetch` resolves: a non-ok status
yields `null` (here `.ok none`), a missing or non-4-element
`boundingbox` yields `null`, a bbox-normalization throw is caught and
yields `null`; otherwise the normalized result is produced.  The
function itself never throws, hence the error arm of the `Except` is
unused by this handler. -/
def lookupLocationHandle (jsNumber : String → Option ℚ) (query : String)
    (res : HttpResponse (List NominatimPlace)) :
    Except String (Option LookupLocationResult) :=
  if !res.ok then
    .ok none
  else
    match res.json.head? with
    | none => .ok none
    | some first =>
      match first.boundingbox with
      | none => .ok none
      | some bb =>
        match bb with
        | [s1, s2, s3, s4] =>
          match nominatimBboxToAppBbox jsNumber (s1, s2, s3, s4) with
          | .ok bbox =>
              .ok (some { displayName := first.display_name.getD query
                          bbox := bbox
                          placeId := first.place_id.getD "" })
          | .error _ => .ok none
        | _ => .ok none

/-- `true` exactly on the thrown / failure-message arm of a client
result. -/
def exceptIsError {α : Type} : Except String α → Bool
  | .error _ => true
  | .ok _ => false

/- ----------------------------------------------------------------------
Claim theorems: C3 and C4
---------------------------------------------------------------------- -/

/-- Claim C3: for every bounding box, `bboxToPolygon` returns a GeoJSON
polygon whose single ring has exactly 5 points, whose first and last
points are both the south-west corner `[minLon, minLat]`, and whose
points are exactly the four corners of the box in one consistent
(counter-clockwise) winding order. -/
theorem bboxToPolygon_closed_ring (b : BBox) :
    ∃ ring : List (ℚ × ℚ),
      (bboxToPolygon b).coordinates = [ring] ∧
      ring.length = 5 ∧
      ring.head? = some (b.minLon, b.minLat) ∧
      ring.getLast? = some (b.minLon, b.minLat) ∧
      ring = [(b.minLon, b.minLat), (b.maxLon, b.minLat), (b.maxLon, b.maxLat),
              (b.minLon, b.maxLat), (b.minLon, b.minLat)] := by
  refine ⟨_, rfl, rfl, rfl, ?_, rfl⟩
  rfl

/-- Claim C4: a well-formed Nominatim bbox `[minLat, maxLat, minLon,
maxLon]` (all slots parse as numbers, each min ≤ its max) is normalized
to the app order `[minLon, minLat, maxLon, maxLat]`, and the result
satisfies the `BBox` ordering invariants. -/
theorem nominatimBboxToAppBbox_normalizes (jsNumber : String → Option ℚ)
    (s1 s2 s3 s4 : String) (minLat maxLat minLon maxLon : ℚ)
    (h1 : jsNumber s1 = some minLat) (h2 : jsNumber s2 = some maxLat)
    (h3 : jsNumber s3 = some minLon) (h4 : jsNumber s4 = some maxLon)
    (hlat : minLat ≤ maxLat) (hlon : minLon ≤ maxLon) :
    ∃ b : BBox,
      nominatimBboxToAppBbox jsNumber (s1, s2, s3, s4) = .ok b ∧
      b = { minLon := minLon, minLat := minLat, maxLon := maxLon, maxLat := maxLat } ∧
      b.minLon ≤ b.maxLon ∧ b.minLat ≤ b.maxLat := by
  refine ⟨_, ?_, rfl, hlon, hlat⟩
  simp [nominatimBboxToAppBbox, h1, h2, h3, h4]

/-- Witness for C4 at a concrete parser and concrete provider strings. -/
theorem nominatimBboxToAppBbox_normalizes_witness :
    ∃ b : BBox,
      nominatimBboxToAppBbox
        (fun s => if s = "40" then some 40 else if s = "43" then some 43
                  else if s = "-96" then some (-96) else if s = "-90" then some (-90)
                  else none)
        ("40", "43", "-96", "-90") = .ok b ∧
      b = { minLon := -96, minLat := 40, maxLon := -90, maxLat := 43 } ∧
      b.minLon ≤ b.maxLon ∧ b.minLat ≤ b.maxLat :=
  nominatimBboxToAppBbox_normalizes
    (fun s => if s = "40" then some 40 else if s = "43" then some 43
              else if s = "-96" then some (-96) else if s = "-90" then some (-90)
              else none)
    "40" "43" "-96" "-90" 40 43 (-96) (-90)
    (by decide) (by decide) (by decide) (by decide)
    (by norm_num) (by norm_num)

/- ----------------------------------------------------------------------
Sentinel Hub catalog client (src/unnamed/part_004, lines 139–198)
---------------------------------------------------------------------- -/

/-- `properties` of one catalog feature: capture `datetime` and
`eo:cloud_cover`, both optional. -/
structure FeatureProps where
  datetime : Option String
  cloudCover : Option ℚ
deriving DecidableEq

/-- One feature of the catalog search response (part_004, lines
176–181): `id` and `properties` both optional. -/
structure CatalogFeature where
  id : Option String
  properties : Option FeatureProps
deriving DecidableEq

/-- Parsed catalog response body: optional `features` array. -/
structure CatalogJson where
  features : Option (List CatalogFeature)
deriving DecidableEq

/-- Selected-scene result (`CatalogImageResult`). -/
structure CatalogImageResult where
  id : String
  timestamp : String
  cloudCover : Option ℚ
deriving DecidableEq

/-- The sort key used by the comparator in `searchSatelliteImages`
(part_004, lines 183–189): `x.properties?.datetime ?? ""`. -/
def featTime (f : CatalogFeature) : String :=
  match f.properties with
  | some p => p.datetime.getD ""
  | none => ""

/-- Executable lexicographic comparison of character lists, the order
ECMAScript `<` applies to strings (compare code units; a proper prefix
is smaller).  Only used because Lean's built-in `String` order does not
evaluate inside the kernel; `charListLtb_iff` identifies the two. -/
def charListLtb : List Char → List Char → Bool
  | _, [] => false
  | [], _ :: _ => true
  | a :: as, b :: bs =>
    if a < b then true
    else if b < a then false
    else charListLtb as bs

theorem charListLtb_iff : ∀ (as bs : List Char), charListLtb as bs = true ↔ as < bs
  | as, [] => by
    simp only [charListLtb, Bool.false_eq_true, false_iff]
    intro h
    cases h
  | [], b :: bs => by
    simp only [charListLtb, true_iff]
    exact List.Lex.nil
  | a :: as, b :: bs => by
    by_cases hab : a < b
    · simp only [charListLtb, if_pos hab, true_iff]
      exact List.Lex.rel hab
    · by_cases hba : b < a
      · simp only [charListLtb, if_neg hab, if_pos hba, Bool.false_eq_true, false_iff]
        intro h
        cases h with
        | cons h3 => exact absurd hba (lt_irrefl _)
        | rel h1 => exact absurd h1 hab
      · have hab2 : a = b := le_antisymm (le_of_not_lt hba) (le_of_not_lt hab)
        subst hab2
        simp only [charListLtb, if_neg hab, if_neg hba]
        rw [charListLtb_iff as bs]
        constructor
        · intro h
          exact List.Lex.cons h
        · intro h
          cases h with
          | cons h3 => exact h3
          | rel h1 => exact absurd h1 hab

/-- ECMAScript string `<` as an executable Boolean (UTF-16 code-unit
lexicographic order; identical to code-point order on the ISO-date and
ISO-datetime strings compared here). -/
def jsStringLt (a b : String) : Bool := charListLtb a.toList b.toList

theorem jsStringLt_iff (a b : String) : jsStringLt a b = true ↔ a < b :=
  (charListLtb_iff a.toList b.toList).trans String.lt_iff_toList_lt.symm

/-- Stable insertion step realizing the ECMAScript `Array.prototype.sort`
contract for the comparator `(a, b) => aTime === bTime ? 0 : (aTime <
bTime ? 1 : -1)` (newest first): an element keeps moving right past
strictly newer elements only, so equal timestamps preserve input
order. -/
def insertByTimeDesc (f : CatalogFeature) : List CatalogFeature → List CatalogFeature
  | [] => [f]
  | g :: gs =>
    if jsStringLt (featTime f) (featTime g) then g :: insertByTimeDesc f gs
    else f :: g :: gs

/-- Stable descending-by-timestamp sort of the feature list, the
behaviour the ECMAScript specification guarantees for
`features.slice().sort(comparator)` with the consistent comparator
above. -/
def sortByTimeDesc : List CatalogFeature → List CatalogFeature
  | [] => []
  | f :: fs => insertByTimeDesc f (sortByTimeDesc fs)

/-- Projection of the chosen feature into the returned
`CatalogImageResult` (part_004, lines 192–197): `best.id ?? ""`,
`best.properties?.datetime ?? ""`,
`best.properties?.["eo:cloud_cover"]`. -/
def catalogResultOfFeature (best : CatalogFeature) : CatalogImageResult :=
  { id := best.id.getD ""
    timestamp := featTime best
    cloudCover := best.properties.bind FeatureProps.cloudCover }

/-- Embeds the selection tail of `searchSatelliteImages` (part_004,
lines 183–198): stable-sort the features newest-first; an empty list
yields `null`, otherwise the head is returned. -/
def selectScene (features : List CatalogFeature) : Option CatalogImageResult :=
  match sortByTimeDesc features with
  | [] => none
  | best :: _ => some (catalogResultOfFeature best)

/-- Embeds the response handling of `searchSatelliteImages` (part_004,
lines 171–198): a non-ok status throws the descriptive catalog failure
message; otherwise the scene is selected from `data.features ?? []`. -/
def searchSatelliteImagesHandle (res : HttpResponse CatalogJson) :
    Except String (Option CatalogImageResult) :=
  if !res.ok then
    .error ("Sentinel Hub Catalog search failed (" ++ toString res.status ++ "): "
            ++ res.bodyText)
  else
    .ok (selectScene (res.json.features.getD []))

/-- Modelled from the claim's words (C2), for comparison with
`selectScene`: the first feature of the list attaining the maximum
timestamp — most recent capture, ties resolved to the earlier input
position. -/
def mostRecentFirst : List CatalogFeature → Option CatalogFeature
  | [] => none
  | f :: fs =>
    match mostRecentFirst fs with
    | none => some f
    | some g => if jsStringLt (featTime f) (featTime g) then some g else some f


/-- Helper for head computations: the element that ends up first when
`f` is inserted in front of a (possibly empty) descending list whose
head is the given option. -/
def headMerge (f : CatalogFeature) : Option CatalogFeature → CatalogFeature
  | none => f
  | some g => if jsStringLt (featTime f) (featTime g) then g else f

theorem mostRecentFirst_cons (f : CatalogFeature) (fs : List CatalogFeature) :
    mostRecentFirst (f :: fs) = some (headMerge f (mostRecentFirst fs)) := by
  cases h : mostRecentFirst fs with
  | none => simp [mostRecentFirst, h, headMerge]
  | some g =>
    by_cases hc : jsStringLt (featTime f) (featTime g) = true
    · simp [mostRecentFirst, h, headMerge, hc]
    · simp [mostRecentFirst, h, headMerge, hc]

theorem insertByTimeDesc_head? (f : CatalogFeature) (s : List CatalogFeature) :
    (insertByTimeDesc f s).head? = some (headMerge f s.head?) := by
  cases s with
  | nil => rfl
  | cons g gs =>
    by_cases h : jsStringLt (featTime f) (featTime g) = true
    · simp only [insertByTimeDesc, headMerge, List.head?_cons, if_pos h]
    · simp only [insertByTimeDesc, headMerge, List.head?_cons, if_neg h]

theorem sortByTimeDesc_head?_eq_mostRecentFirst (l : List CatalogFeature) :
    (sortByTimeDesc l).head? = mostRecentFirst l := by
  induction l with
  | nil => rfl
  | cons f fs ih =>
    rw [show sortByTimeDesc (f :: fs) = insertByTimeDesc f (sortByTimeDesc fs) from rfl,
        insertByTimeDesc_head?, ih, mostRecentFirst_cons]

theorem selectScene_eq_map_mostRecentFirst (l : List CatalogFeature) :
    selectScene l = (mostRecentFirst l).map catalogResultOfFeature := by
  rw [← sortByTimeDesc_head?_eq_mostRecentFirst]
  cases h : sortByTimeDesc l with
  | nil => simp [selectScene, h]
  | cons best rest => simp [selectScene, h]

/-- `mostRecentFirst` picks an element of the list whose timestamp is
maximal, and every strictly earlier position holds a strictly older
timestamp. -/
theorem mostRecentFirst_is_first_max (l : List CatalogFeature) (hne : l ≠ []) :
    ∃ i : Fin l.length,
      mostRecentFirst l = some (l.get i) ∧
      (∀ j : Fin l.length, featTime (l.get j) ≤ featTime (l.get i)) ∧
      (∀ j : Fin l.length, (j : ℕ) < (i : ℕ) → featTime (l.get j) < featTime (l.get i)) := by
  induction l with
  | nil => exact absurd rfl hne
  | cons f fs ih =>
    cases hfs : fs with
    | nil =>
      subst hfs
      refine ⟨⟨0, Nat.one_pos⟩, rfl, ?_, ?_⟩
      · intro j
        rcases j with ⟨jv, hjv⟩
        have h0 : jv = 0 := Nat.lt_one_iff.mp hjv
        subst h0
        exact le_refl _
      · intro j hj
        exact absurd hj (Nat.not_lt_zero _)
    | cons f' fs' =>
      subst hfs
      obtain ⟨i', hget, hmax, hfirst⟩ := ih (by simp)
      by_cases h : jsStringLt (featTime f) (featTime ((f' :: fs').get i')) = true
      · refine ⟨i'.succ, ?_, ?_, ?_⟩
        · rw [mostRecentFirst_cons, hget]
          simp only [headMerge, if_pos h]
          rfl
        · intro j
          refine Fin.cases ?_ (fun j' => ?_) j
          · exact le_of_lt ((jsStringLt_iff _ _).mp h)
          · exact hmax j'
        · intro j
          refine Fin.cases ?_ (fun j' => ?_) j
          · intro _
            exact (jsStringLt_iff _ _).mp h
          · intro hj'
            exact hfirst j' (Nat.lt_of_succ_lt_succ hj')
      · refine ⟨⟨0, Nat.succ_pos _⟩, ?_, ?_, ?_⟩
        · rw [mostRecentFirst_cons, hget]
          simp only [headMerge, if_neg h]
          rfl
        · intro j
          refine Fin.cases ?_ (fun j' => ?_) j
          · exact le_refl _
          · exact le_trans (hmax j')
              (le_of_not_lt (fun hlt => h ((jsStringLt_iff _ _).mpr hlt)))
        · intro j hj
          exact absurd hj (Nat.not_lt_zero _)

/-- Claim C2: for every non-empty list of catalog features (each already
satisfying the request's cloud-cover-below-10% filter),
`searchSatelliteImages` selects the feature with the most recent capture
timestamp (greatest string after the descending sort), ties resolved to
the feature appearing earlier in the provider's input order (stable
sort). -/
theorem selectScene_most_recent_stable (l : List CatalogFeature) (hne : l ≠ [])
    (hcloud : ∀ f ∈ l, ∀ c : ℚ, f.properties.bind FeatureProps.cloudCover = some c → c < 10) :
    ∃ i : Fin l.length,
      selectScene l = some (catalogResultOfFeature (l.get i)) ∧
      (∀ j : Fin l.length, featTime (l.get j) ≤ featTime (l.get i)) ∧
      (∀ j : Fin l.length, (j : ℕ) < (i : ℕ) → featTime (l.get j) < featTime (l.get i)) := by
  obtain ⟨i, hget, hmax, hfirst⟩ := mostRecentFirst_is_first_max l hne
  refine ⟨i, ?_, hmax, hfirst⟩
  rw [selectScene_eq_map_mostRecentFirst, hget]
  rfl

/-- Concrete catalog feature used by witnesses: oldest scene. -/
def sceneA : CatalogFeature :=
  { id := some "A", properties := some { datetime := some "2024-05-01T10:00:00Z", cloudCover := some 5 } }

/-- Concrete catalog feature used by witnesses: newest scene, first of a
timestamp tie. -/
def sceneB : CatalogFeature :=
  { id := some "B", properties := some { datetime := some "2024-05-03T10:00:00Z", cloudCover := some 3 } }

/-- Concrete catalog feature used by witnesses: newest scene, second of
a timestamp tie (must lose to `sceneB` by input order). -/
def sceneC : CatalogFeature :=
  { id := some "C", properties := some { datetime := some "2024-05-03T10:00:00Z", cloudCover := some 7 } }

/-- Witness for C2 on a concrete three-scene list with a timestamp tie:
the selected scene is `sceneB` (most recent timestamp, earlier of the
tied pair). -/
theorem selectScene_most_recent_stable_witness :
    selectScene [sceneA, sceneB, sceneC] =
      some { id := "B", timestamp := "2024-05-03T10:00:00Z", cloudCover := some 3 } ∧
    ∃ i : Fin ([sceneA, sceneB, sceneC].length),
      selectScene [sceneA, sceneB, sceneC] =
        some (catalogResultOfFeature ([sceneA, sceneB, sceneC].get i)) ∧
      (∀ j : Fin ([sceneA, sceneB, sceneC].length),
        featTime ([sceneA, sceneB, sceneC].get j) ≤ featTime ([sceneA, sceneB, sceneC].get i)) ∧
      (∀ j : Fin ([sceneA, sceneB, sceneC].length),
        (j : ℕ) < (i : ℕ) →
        featTime ([sceneA, sceneB, sceneC].get j) < featTime ([sceneA, sceneB, sceneC].get i)) :=
  ⟨by decide,
   selectScene_most_recent_stable [sceneA, sceneB, sceneC] (by simp)
     (by
        intro f hf c hc
        fin_cases hf <;> simp [sceneA, sceneB, sceneC] at hc <;> exact hc ▸ (by norm_num))⟩

/- ----------------------------------------------------------------------
Statistical API response and NDVI stats extraction
(src/unnamed/part_004, lines 33–56 and 437–445)
---------------------------------------------------------------------- -/

/-- `VegetationStats`: aggregate NDVI values for one interval.  Counts
are optional in the provider payload. -/
structure VegetationStats where
  mean : ℚ
  min : ℚ
  max : ℚ
  stDev : ℚ
  sampleCount : Option ℤ
  noDataCount : Option ℤ
deriving DecidableEq

/-- One keyed band entry (`{ stats?: VegetationStats }`). -/
structure BandEntry where
  stats : Option VegetationStats
deriving DecidableEq

/-- The `ndvi` output: its optional `bands` object, modelled as an
assoc list in JavaScript object-key insertion order. -/
structure NdviOutput where
  bands : Option (List (String × BandEntry))
deriving DecidableEq

/-- One interval of `VegetationStatsResponse.data`.  Of `outputs` only
the `ndvi` key is typed by the source (the rest is `unknown` and
unused), so only it is modelled. -/
structure IntervalData where
  intervalFrom : String
  intervalTo : String
  ndvi : Option NdviOutput
deriving DecidableEq

/-- `VegetationStatsResponse`: status plus per-interval data. -/
structure VegetationStatsResponse where
  status : String
  data : List IntervalData
deriving DecidableEq

/-- First value bound to a key in an assoc list — JavaScript object
member access (keys are unique in a JS object, so first is only). -/
def getKey {α : Type} : List (String × α) → String → Option α
  | [], _ => none
  | (k, v) :: rest, key => if k = key then some v else getKey rest key

/-- Embeds `extractNDVIStatsForLLM` (part_004, lines 437–445):
`data?.[0]`, then `outputs?.ndvi?.bands`; `null` when `bands` is
absent; otherwise `bands.B0?.stats ?? bands[Object.keys(bands)[0]]?.stats
?? null` — the `B0` band when it has stats, else the first key's
stats. -/
def extractNDVIStatsForLLM (response : VegetationStatsResponse) : Option VegetationStats :=
  match response.data.head? with
  | none => none
  | some first =>
    match first.ndvi with
    | none => none
    | some out =>
      match out.bands with
      | none => none
      | some bands =>
        match (getKey bands "B0").bind BandEntry.stats with
        | some s => some s
        | none =>
          match bands.head? with
          | none => none
          | some (_, entry) => entry.stats

/-- Embeds the response handling of `getVegetationStats` (part_004,
lines 425–430): a non-ok status throws the descriptive statistics
failure message, otherwise the parsed body is returned. -/
def getVegetationStatsHandle (res : HttpResponse VegetationStatsResponse) :
    Except String VegetationStatsResponse :=
  if !res.ok then
    .error ("Sentinel Hub Statistical API failed (" ++ toString res.status ++ "): "
            ++ res.bodyText)
  else
    .ok res.json

/-- Embeds the response handling of `generateNDVIImage` (part_004,
lines 287–292): a non-ok status throws the descriptive Process API
failure message, otherwise the PNG bytes are returned. -/
def generateNDVIImageHandle (res : HttpResponse (List Nat)) : Except String (List Nat) :=
  if !res.ok then
    .error ("Sentinel Hub Process API failed (" ++ toString res.status ++ "): "
            ++ res.bodyText)
  else
    .ok res.json

/-- Embeds the response handling of `generateTrueColorImage` (part_004,
lines 345–350), identical in shape to the NDVI renderer's. -/
def generateTrueColorImageHandle (res : HttpResponse (List Nat)) : Except String (List Nat) :=
  if !res.ok then
    .error ("Sentinel Hub Process API failed (" ++ toString res.status ++ "): "
            ++ res.bodyText)
  else
    .ok res.json

/- ----------------------------------------------------------------------
Tool executors of the chat route (src/src/app/api/chat/route.ts)
---------------------------------------------------------------------- -/

/-- Result of the `lookupLocation` tool executor (route.ts, lines
61–74): success payload or `{error: message}`. -/
inductive LookupReply where
  | success (displayName : String) (bbox : BBox) (placeId : String)
  | error (msg : String)
deriving DecidableEq

/-- Result of the `searchScenes` tool executor (route.ts, lines
89–110): found scene, `{found: false, message}`, or `{error}`. -/
inductive SearchReply where
  | found (id : String) (timestamp : String) (cloudCover : Option ℚ)
  | notFound (message : String)
  | error (msg : String)
deriving DecidableEq

/-- Result of the `getVegetationStats` tool executor (route.ts, lines
122–141): stats payload or `{error}`. -/
inductive StatsReply where
  | success (stats : VegetationStats)
  | error (msg : String)
deriving DecidableEq

/-- Result of the `generateNDVI` / `generateTrueColor` tool executors
(route.ts, lines 153–173 and 185–205): `{success, imageDataUrl,
message}` or `{error}`. -/
inductive ImageReply where
  | success (imageDataUrl : String) (message : String)
  | error (msg : String)
deriving DecidableEq

/-- RFC 4648 base64 alphabet, as used by
`Buffer.from(buffer).toString("base64")`. -/
def base64Alphabet : List Char :=
  "ABCDEFGHIJKLMNOPQRSTUVWXYZabcdefghijklmnopqrstuvwxyz0123456789+/".toList

/-- Character for one 6-bit group. -/
def b64Char (n : Nat) : Char := base64Alphabet.getD n 'A'

/-- Base64 encoding of a byte list, the behaviour of
`Buffer.from(buffer).toString("base64")`: 3-byte groups become 4
characters; a trailing group of 1 or 2 bytes is padded with `=`. -/
def base64Encode : List Nat → String
  | [] => ""
  | [b1] =>
    String.mk [b64Char (b1 / 4), b64Char (b1 % 4 * 16), '=', '=']
  | [b1, b2] =>
    String.mk [b64Char (b1 / 4), b64Char (b1 % 4 * 16 + b2 / 16), b64Char (b2 % 16 * 4), '=']
  | b1 :: b2 :: b3 :: rest =>
    String.mk [b64Char (b1 / 4), b64Char (b1 % 4 * 16 + b2 / 16),
               b64Char (b2 % 16 * 4 + b3 / 64), b64Char (b3 % 64)]
      ++ base64Encode rest

/-- Embeds the `lookupLocation` tool executor (route.ts, lines 61–74).
Its argument is the outcome of the awaited provider call: `.error e` is
a thrown exception (`e` the `Error` message, `none` a non-`Error`
throw), `.ok none` the provider's "not found", `.ok (some loc)` a hit.
The `catch` branch re-expresses the exception as `{error: msg}` using
the fallback `"Geocoding failed."` for non-`Error` throws. -/
def lookupLocationExecute (call : Except (Option String) (Option LookupLocationResult)) :
    LookupReply :=
  match call with
  | .error err => .error (err.getD "Geocoding failed.")
  | .ok none => .error "Location not found. Please try another name or add more detail."
  | .ok (some loc) => .success loc.displayName loc.bbox loc.placeId

/-- Embeds the `searchScenes` tool executor (route.ts, lines 89–110);
argument conventions as in `lookupLocationExecute`. -/
def searchScenesExecute (call : Except (Option String) (Option CatalogImageResult)) :
    SearchReply :=
  match call with
  | .error err => .error (err.getD "Catalog search failed.")
  | .ok none =>
    .notFound "No suitable image found for this area and date range (e.g. cloud cover too high)."
  | .ok (some scene) => .found scene.id scene.timestamp scene.cloudCover

/-- Embeds the `getVegetationStats` tool executor (route.ts, lines
122–141): the polygon built by `bboxToPolygon` is consumed by the
provider call, whose outcome is this argument; the response is reduced
by `extractNDVIStatsForLLM`. -/
def getVegetationStatsExecute (call : Except (Option String) VegetationStatsResponse) :
    StatsReply :=
  match call with
  | .error err => .error (err.getD "Statistics request failed.")
  | .ok response =>
    match extractNDVIStatsForLLM response with
    | none => .error "No NDVI statistics returned for this area/date."
    | some stats => .success stats

/-- Embeds the `generateNDVI` tool executor (route.ts, lines 153–173):
the provider's PNG bytes are base64-encoded into a data URL. -/
def generateNDVIExecute (call : Except (Option String) (List Nat)) : ImageReply :=
  match call with
  | .error err => .error (err.getD "NDVI image generation failed.")
  | .ok buffer =>
    .success ("data:image/png;base64," ++ base64Encode buffer)
      "NDVI image generated. Describe it to the user or suggest they view it."

/-- Embeds the `generateTrueColor` tool executor (route.ts, lines
185–205). -/
def generateTrueColorExecute (call : Except (Option String) (List Nat)) : ImageReply :=
  match call with
  | .error err => .error (err.getD "True color image generation failed.")
  | .ok buffer =>
    .success ("data:image/png;base64," ++ base64Encode buffer) "True color image generated."

/-- Claim C1: every tool executor converts a thrown provider exception
into an `{error: message}` result value (the thrown message, or the
tool's fallback message for a non-`Error` throw) instead of letting the
exception escape — the executors are total functions into reply values,
so a tool failure is data for the model, never a loop abort. -/
theorem tool_executors_catch_exceptions (e : Option String) :
    lookupLocationExecute (.error e) = .error (e.getD "Geocoding failed.") ∧
    searchScenesExecute (.error e) = .error (e.getD "Catalog search failed.") ∧
    getVegetationStatsExecute (.error e) = .error (e.getD "Statistics request failed.") ∧
    generateNDVIExecute (.error e) = .error (e.getD "NDVI image generation failed.") ∧
    generateTrueColorExecute (.error e) = .error (e.getD "True color image generation failed.") :=
  ⟨rfl, rfl, rfl, rfl, rfl⟩

/-- Claim C5: an ok catalog response with zero qualifying scenes makes
`searchSatelliteImages` return `null` (not a thrown error), and the
`searchScenes` executor turns that into the distinguishable
`{found: false, message}` result, which is not an `{error}` payload. -/
theorem empty_catalog_is_not_found (res : HttpResponse CatalogJson)
    (hok : res.ok = true) (hempty : res.json.features.getD [] = []) :
    searchSatelliteImagesHandle res = .ok none ∧
    searchScenesExecute (.ok none) =
      .notFound
        "No suitable image found for this area and date range (e.g. cloud cover too high)." ∧
    ∀ msg : String, searchScenesExecute (.ok none) ≠ SearchReply.error msg := by
  refine ⟨?_, rfl, fun msg h => SearchReply.noConfusion h⟩
  simp [searchSatelliteImagesHandle, hok, hempty, selectScene, sortByTimeDesc]

/-- Witness for C5 at a concrete ok response carrying an empty feature
list. -/
theorem empty_catalog_is_not_found_witness :
    searchSatelliteImagesHandle
      { ok := true, status := 200, bodyText := "", json := { features := some [] } } = .ok none ∧
    searchScenesExecute (.ok none) =
      .notFound
        "No suitable image found for this area and date range (e.g. cloud cover too high)." ∧
    ∀ msg : String, searchScenesExecute (.ok none) ≠ SearchReply.error msg :=
  empty_catalog_is_not_found
    { ok := true, status := 200, bodyText := "", json := { features := some [] } } rfl rfl

/- ----------------------------------------------------------------------
Tool-argument schema validation (route.ts `inputSchema` declarations,
validated by the AI SDK before an executor runs)
---------------------------------------------------------------------- -/

/-- A JSON value, the shape of tool-call arguments the model emits. -/
inductive JValue where
  | jnull
  | bool (b : Bool)
  | num (q : ℚ)
  | str (s : String)
  | arr (elems : List JValue)
  | obj (fields : List (String × JValue))

/-- Validation of `z.number()`: accepts exactly JSON numbers. -/
def zNumberAccepts : JValue → Bool
  | .num _ => true
  | _ => false

/-- Validation of `z.string()`: accepts exactly JSON strings — and
nothing more; `.describe("Date YYYY-MM-DD")` attaches prose for the
model but adds no validation. -/
def zStringAccepts : JValue → Bool
  | .str _ => true
  | _ => false

/-- Validation of `z.array(z.number()).length(4)` (the bbox parameter of
`searchScenes`, `getVegetationStats`, `generateNDVI` and
`generateTrueColor`): an array whose elements are all numbers and whose
length is exactly 4. -/
def zBboxAccepts : JValue → Bool
  | .arr elems => elems.all zNumberAccepts && (elems.length == 4)
  | _ => false

/-- A required object field: present and accepted by its schema
(`z.object` rejects a missing required key). -/
def zFieldAccepts (schema : JValue → Bool) (fields : List (String × JValue))
    (key : String) : Bool :=
  match getKey fields key with
  | some v => schema v
  | none => false

/-- Validation of the `dateRange` object of `searchScenes`:
`z.object({from: z.string(), to: z.string()})`. -/
def zDateRangeAccepts : JValue → Bool
  | .obj fs => zFieldAccepts zStringAccepts fs "from" && zFieldAccepts zStringAccepts fs "to"
  | _ => false

/-- `lookupLocation` input schema (route.ts, lines 58–60):
`z.object({query: z.string()})`. -/
def lookupLocationSchema : JValue → Bool
  | .obj fs => zFieldAccepts zStringAccepts fs "query"
  | _ => false

/-- `searchScenes` input schema (route.ts, lines 79–88). -/
def searchScenesSchema : JValue → Bool
  | .obj fs => zFieldAccepts zBboxAccepts fs "bbox" && zFieldAccepts zDateRangeAccepts fs "dateRange"
  | _ => false

/-- `getVegetationStats` input schema (route.ts, lines 115–121). -/
def getVegetationStatsSchema : JValue → Bool
  | .obj fs => zFieldAccepts zBboxAccepts fs "bbox" && zFieldAccepts zStringAccepts fs "date"
  | _ => false

/-- `generateNDVI` input schema (route.ts, lines 146–152), identical in
shape to `getVegetationStats`'s. -/
def generateNDVISchema : JValue → Bool
  | .obj fs => zFieldAccepts zBboxAccepts fs "bbox" && zFieldAccepts zStringAccepts fs "date"
  | _ => false

/-- `generateTrueColor` input schema (route.ts, lines 178–184), same
shape again. -/
def generateTrueColorSchema : JValue → Bool
  | .obj fs => zFieldAccepts zBboxAccepts fs "bbox" && zFieldAccepts zStringAccepts fs "date"
  | _ => false

/-- Outcome of one tool call at the orchestrator boundary: rejected by
schema validation (executor never invoked, hence no provider network
call), or executed with a result. -/
inductive ToolCallOutcome (α : Type) where
  | schemaRejected
  | executed (result : α)
deriving DecidableEq

/-- The AI SDK's validate-then-execute behaviour for one declared tool:
the executor (the only place a provider network call happens) runs
exactly when the input schema accepts the arguments. -/
def dispatchToolCall {α : Type} (schema : JValue → Bool) (execute : JValue → α)
    (args : JValue) : ToolCallOutcome α :=
  if schema args then .executed (execute args) else .schemaRejected

/-- Claim C6: a tool call whose `bbox` argument is an array of numbers
of length ≠ 4 is rejected by every bbox-taking tool's schema, and the
dispatch outcome is `schemaRejected` for every possible executor — so
the executor, and with it any provider network call, is never
invoked. -/
theorem bbox_wrong_length_rejected (fields : List (String × JValue)) (nums : List ℚ)
    (hb : getKey fields "bbox" = some (.arr (nums.map JValue.num)))
    (hlen : nums.length ≠ 4) :
    searchScenesSchema (.obj fields) = false ∧
    getVegetationStatsSchema (.obj fields) = false ∧
    generateNDVISchema (.obj fields) = false ∧
    generateTrueColorSchema (.obj fields) = false ∧
    (∀ (α : Type) (ex : JValue → α),
      dispatchToolCall searchScenesSchema ex (.obj fields) = .schemaRejected ∧
      dispatchToolCall getVegetationStatsSchema ex (.obj fields) = .schemaRejected ∧
      dispatchToolCall generateNDVISchema ex (.obj fields) = .schemaRejected ∧
      dispatchToolCall generateTrueColorSchema ex (.obj fields) = .schemaRejected) := by
  have hbb : zBboxAccepts (.arr (nums.map JValue.num)) = false := by
    simp [zBboxAccepts, hlen]
  have h1 : searchScenesSchema (.obj fields) = false := by
    simp [searchScenesSchema, zFieldAccepts, hb, hbb]
  have h2 : getVegetationStatsSchema (.obj fields) = false := by
    simp [getVegetationStatsSchema, zFieldAccepts, hb, hbb]
  have h3 : generateNDVISchema (.obj fields) = false := by
    simp [generateNDVISchema, zFieldAccepts, hb, hbb]
  have h4 : generateTrueColorSchema (.obj fields) = false := by
    simp [generateTrueColorSchema, zFieldAccepts, hb, hbb]
  refine ⟨h1, h2, h3, h4, fun α ex => ⟨?_, ?_, ?_, ?_⟩⟩ <;>
    simp [dispatchToolCall, h1, h2, h3, h4]

/-- Concrete ill-formed arguments for the C6 witness: a 3-element bbox
with an otherwise well-formed argument object. -/
def shortBboxArgs : List (String × JValue) :=
  [("bbox", .arr [.num 1, .num 2, .num 3]),
   ("dateRange", .obj [("from", .str "2024-01-01"), ("to", .str "2024-01-31")]),
   ("date", .str "2024-01-15")]

/-- Witness for C6: the concrete length-3 bbox call is rejected by all
four schemas and never dispatched to an executor. -/
theorem bbox_wrong_length_rejected_witness :
    getKey shortBboxArgs "bbox" = some (.arr (([1, 2, 3] : List ℚ).map JValue.num)) ∧
    ([1, 2, 3] : List ℚ).length ≠ 4 ∧
    searchScenesSchema (.obj shortBboxArgs) = false ∧
    dispatchToolCall searchScenesSchema (fun _ => (0 : Nat)) (.obj shortBboxArgs) =
      .schemaRejected ∧
    dispatchToolCall getVegetationStatsSchema (fun _ => (0 : Nat)) (.obj shortBboxArgs) =
      .schemaRejected :=
  ⟨rfl, by decide,
   (bbox_wrong_length_rejected shortBboxArgs [1, 2, 3] rfl (by decide)).1,
   ((bbox_wrong_length_rejected shortBboxArgs [1, 2, 3] rfl (by decide)).2.2.2.2
     Nat (fun _ => 0)).1,
   ((bbox_wrong_length_rejected shortBboxArgs [1, 2, 3] rfl (by decide)).2.2.2.2
     Nat (fun _ => 0)).2.1⟩

/-- Concrete arguments whose `date` is not a well-formed ISO calendar
date but whose shape is otherwise valid. -/
def malformedDateArgs : JValue :=
  .obj [("bbox", .arr [.num 1, .num 2, .num 3, .num 4]), ("date", .str "not-a-date")]

/-- Counterexample to claim C7: the `getVegetationStats` schema accepts
the malformed date string `"not-a-date"` and the executor is invoked —
schema validation does not reject malformed dates before execution. -/
theorem malformed_date_passes_schema :
    getVegetationStatsSchema malformedDateArgs = true ∧
    dispatchToolCall getVegetationStatsSchema (fun _ => true) malformedDateArgs =
      .executed true :=
  ⟨rfl, rfl⟩

/-- Claim C7 (amended): the four tools' schemas validate date arguments
only for being strings — any string, well-formed ISO date or not, is
accepted (and a non-string is rejected); date well-formedness is not
checked by schema validation. -/
theorem date_schema_accepts_any_string (bbv : JValue) (hb : zBboxAccepts bbv = true)
    (s s2 : String) :
    getVegetationStatsSchema (.obj [("bbox", bbv), ("date", .str s)]) = true ∧
    generateNDVISchema (.obj [("bbox", bbv), ("date", .str s)]) = true ∧
    generateTrueColorSchema (.obj [("bbox", bbv), ("date", .str s)]) = true ∧
    searchScenesSchema
      (.obj [("bbox", bbv), ("dateRange", .obj [("from", .str s), ("to", .str s2)])]) = true ∧
    (∀ v : JValue, zStringAccepts v = false →
      getVegetationStatsSchema (.obj [("bbox", bbv), ("date", v)]) = false) := by
  refine ⟨?_, ?_, ?_, ?_, fun v hv => ?_⟩ <;>
    simp [getVegetationStatsSchema, generateNDVISchema, generateTrueColorSchema,
          searchScenesSchema, zDateRangeAccepts, zFieldAccepts, getKey, zStringAccepts,
          hb] <;>
    simp_all [zStringAccepts]

/-- Witness for C7's amended claim at a concrete valid bbox and the
malformed date `"not-a-date"`. -/
theorem date_schema_accepts_any_string_witness :
    zBboxAccepts (.arr [.num 1, .num 2, .num 3, .num 4]) = true ∧
    getVegetationStatsSchema
      (.obj [("bbox", .arr [.num 1, .num 2, .num 3, .num 4]),
             ("date", .str "not-a-date")]) = true :=
  ⟨rfl,
   (date_schema_accepts_any_string (.arr [.num 1, .num 2, .num 3, .num 4]) rfl
     "not-a-date" "x").1⟩

/- ----------------------------------------------------------------------
OAuth2 client-credentials token cache
(src/unnamed/part_004, lines 64–133)
---------------------------------------------------------------------- -/

/-- The module-level `cachedToken` record: `{access_token, exp}` with
`exp` in seconds since epoch. -/
structure CachedToken where
  access_token : String
  exp : ℤ
deriving DecidableEq

/-- Parsed body of the credential-exchange response:
`{access_token, expires_in?}`. -/
structure TokenResponse where
  access_token : String
  expires_in : Option ℤ
deriving DecidableEq

/-- Outcome of one `getAccessToken` call with the mutable module state
made explicit: the returned token (or thrown failure message), the
`cachedToken` state after the call, and whether a credential-exchange
network request was issued. -/
structure AuthOutcome where
  result : Except String String
  state : Option CachedToken
  networkCalled : Bool

/-- The expiry computed from an exchange response (part_004, lines
128–130): `data.expires_in ? now + data.expires_in :
getExpFromToken(data.access_token)`.  JavaScript truthiness makes
`expires_in = 0` fall through to the JWT decode, modelled by the
parameter `expFromToken` (the `getExpFromToken` base64url/JSON decode,
which the claims never inspect). -/
def computeTokenExp (now : ℤ) (data : TokenResponse) (expFromToken : String → ℤ) : ℤ :=
  match data.expires_in with
  | some e => if e = 0 then expFromToken data.access_token else now + e
  | none => expFromToken data.access_token

/-- The fresh-exchange tail of `getAccessToken` (part_004, lines
106–132): a non-ok exchange response throws the auth failure message
(leaving the cache untouched), an ok response stores and returns the
new token.  The network call has been issued in either branch. -/
def freshTokenExchange (now : ℤ) (res : HttpResponse TokenResponse)
    (expFromToken : String → ℤ) (cached : Option CachedToken) : AuthOutcome :=
  if !res.ok then
    { result := .error ("Sentinel Hub auth failed (" ++ toString res.status ++ "): "
                        ++ res.bodyText)
      state := cached
      networkCalled := true }
  else
    { result := .ok res.json.access_token
      state := some { access_token := res.json.access_token
                      exp := computeTokenExp now res.json expFromToken }
      networkCalled := true }

/-- Embeds `getAccessToken` (part_004, lines 100–133) with the
module-level cache passed explicitly: the cached token is reused iff
`cachedToken && cachedToken.exp > now + 60`; otherwise a fresh
credential exchange runs. -/
def getAccessToken (cached : Option CachedToken) (now : ℤ)
    (res : HttpResponse TokenResponse) (expFromToken : String → ℤ) : AuthOutcome :=
  match cached with
  | some t =>
    if now + 60 < t.exp then
      { result := .ok t.access_token, state := some t, networkCalled := false }
    else
      freshTokenExchange now res expFromToken cached
  | none => freshTokenExchange now res expFromToken cached

theorem freshTokenExchange_networkCalled (now : ℤ) (res : HttpResponse TokenResponse)
    (f : String → ℤ) (cached : Option CachedToken) :
    (freshTokenExchange now res f cached).networkCalled = true := by
  unfold freshTokenExchange
  split <;> rfl

/-- Claim C9: the cached token is reused exactly when its expiry lies
more than 60 seconds past the current time — then no exchange request
is issued and the cached token is returned; otherwise a fresh exchange
runs and (when it succeeds) replaces the cache.  Consequently two calls
within the stored token's validity window issue a single exchange, and
a call at or past the 60-second safety margin issues a new one. -/
theorem token_cache_reuse (cached : Option CachedToken) (now : ℤ)
    (res : HttpResponse TokenResponse) (f : String → ℤ) :
    ((getAccessToken cached now res f).networkCalled = false ↔
      ∃ t, cached = some t ∧ now + 60 < t.exp) ∧
    (∀ t, cached = some t → now + 60 < t.exp →
      getAccessToken cached now res f =
        { result := .ok t.access_token, state := some t, networkCalled := false }) ∧
    (res.ok = true → ∀ t, cached = some t → t.exp ≤ now + 60 →
      getAccessToken cached now res f =
        { result := .ok res.json.access_token
          state := some { access_token := res.json.access_token
                          exp := computeTokenExp now res.json f }
          networkCalled := true }) ∧
    (res.ok = true → cached = none → ∀ (now2 : ℤ) (res2 : HttpResponse TokenResponse),
      (getAccessToken cached now res f).networkCalled = true ∧
      (now2 + 60 < computeTokenExp now res.json f →
        getAccessToken (getAccessToken cached now res f).state now2 res2 f =
          { result := .ok res.json.access_token
            state := some { access_token := res.json.access_token
                            exp := computeTokenExp now res.json f }
            networkCalled := false }) ∧
      (computeTokenExp now res.json f ≤ now2 + 60 →
        (getAccessToken (getAccessToken cached now res f).state now2 res2 f).networkCalled
          = true)) := by
  refine ⟨⟨?_, ?_⟩, ?_, ?_, ?_⟩
  · intro hnc
    cases cached with
    | none => simp [getAccessToken, freshTokenExchange_networkCalled] at hnc
    | some t =>
      by_cases h : now + 60 < t.exp
      · exact ⟨t, rfl, h⟩
      · simp [getAccessToken, if_neg h, freshTokenExchange_networkCalled] at hnc
  · rintro ⟨t, rfl, h⟩
    simp [getAccessToken, if_pos h]
  · intro t ht h
    subst ht
    simp [getAccessToken, if_pos h]
  · intro hok t ht h
    subst ht
    have hn : ¬ (now + 60 < t.exp) := not_lt.mpr h
    simp [getAccessToken, if_neg hn, freshTokenExchange, hok]
  · intro hok hnone now2 res2
    subst hnone
    have hstate : (getAccessToken none now res f).state =
        some { access_token := res.json.access_token
               exp := computeTokenExp now res.json f } := by
      simp [getAccessToken, freshTokenExchange, hok]
    refine ⟨by simp [getAccessToken, freshTokenExchange_networkCalled], ?_, ?_⟩
    · intro hwin
      rw [hstate]
      simp [getAccessToken, if_pos hwin]
    · intro hexp
      rw [hstate]
      have hn : ¬ (now2 + 60 < computeTokenExp now res.json f) := not_lt.mpr hexp
      simp [getAccessToken, if_neg hn, freshTokenExchange_networkCalled]

/-- Concrete ok exchange response for the C9 witness. -/
def authOkRes : HttpResponse TokenResponse :=
  { ok := true, status := 200, bodyText := ""
    json := { access_token := "tok", expires_in := some 3600 } }

/-- Second concrete exchange response for the C9 witness (would mint a
different token if consulted). -/
def authOkRes2 : HttpResponse TokenResponse :=
  { ok := true, status := 200, bodyText := ""
    json := { access_token := "tok2", expires_in := some 3600 } }

/-- Witness for C9: a first call at t=1000 issues the exchange and
caches expiry 4600; a second call at t=2000 (inside the window) reuses
the cached token with no network call; a third call at t=4550 (within
60 s of expiry) issues a new exchange. -/
theorem token_cache_reuse_witness :
    computeTokenExp 1000 authOkRes.json (fun _ => 0) = 4600 ∧
    (getAccessToken none 1000 authOkRes (fun _ => 0)).networkCalled = true ∧
    getAccessToken (getAccessToken none 1000 authOkRes (fun _ => 0)).state 2000 authOkRes2
        (fun _ => 0) =
      { result := .ok "tok"
        state := some { access_token := "tok"
                        exp := computeTokenExp 1000 authOkRes.json (fun _ => 0) }
        networkCalled := false } ∧
    (getAccessToken (getAccessToken none 1000 authOkRes (fun _ => 0)).state 4550 authOkRes2
        (fun _ => 0)).networkCalled = true := by
  obtain ⟨h1, h2, -⟩ :=
    (token_cache_reuse none 1000 authOkRes (fun _ => 0)).2.2.2 rfl rfl 2000 authOkRes2
  obtain ⟨-, -, h3⟩ :=
    (token_cache_reuse none 1000 authOkRes (fun _ => 0)).2.2.2 rfl rfl 4550 authOkRes2
  exact ⟨rfl, h1, h2 (by decide), h3 (by decide)⟩

/- ----------------------------------------------------------------------
Claim C8: provider HTTP failure signalling
---------------------------------------------------------------------- -/

/-- Concrete failed geocoder response (HTTP 500). -/
def geocoderRes500 : HttpResponse (List NominatimPlace) :=
  { ok := false, status := 500, bodyText := "Internal Server Error", json := [] }

/-- Counterexample to claim C8 as stated: for the geocoder client a
non-success HTTP status is NOT surfaced as a failure-message signal —
`lookupLocation` returns the null "not found" result, indistinguishable
from a no-match answer. -/
theorem geocoder_http_failure_is_silent_null :
    lookupLocationHandle (fun _ => none) "Iowa" geocoderRes500 = .ok none ∧
    exceptIsError (lookupLocationHandle (fun _ => none) "Iowa" geocoderRes500) = false :=
  ⟨rfl, rfl⟩

/-- Claim C8 (amended): for the credential, catalog, statistics and the
two renderer clients, a non-success HTTP status is surfaced to the
caller as a single descriptive thrown failure message naming the API
and the status (there is no retry construct — each wrapper performs one
`fetch` and reports its failure immediately); the geocoder client
deviates from the claim and maps a non-success status to the null
not-found result instead. -/
theorem provider_http_failure_signals
    (jsNumber : String → Option ℚ) (q : String) (f : String → ℤ)
    (cached : Option CachedToken) (now : ℤ)
    (resG : HttpResponse (List NominatimPlace)) (resA : HttpResponse TokenResponse)
    (resC : HttpResponse CatalogJson) (resS : HttpResponse VegetationStatsResponse)
    (resP resP2 : HttpResponse (List Nat))
    (hG : resG.ok = false) (hA : resA.ok = false) (hC : resC.ok = false)
    (hS : resS.ok = false) (hP : resP.ok = false) (hP2 : resP2.ok = false)
    (hcache : ∀ t, cached = some t → t.exp ≤ now + 60) :
    lookupLocationHandle jsNumber q resG = .ok none ∧
    (getAccessToken cached now resA f).result =
      .error ("Sentinel Hub auth failed (" ++ toString resA.status ++ "): "
              ++ resA.bodyText) ∧
    searchSatelliteImagesHandle resC =
      .error ("Sentinel Hub Catalog search failed (" ++ toString resC.status ++ "): "
              ++ resC.bodyText) ∧
    getVegetationStatsHandle resS =
      .error ("Sentinel Hub Statistical API failed (" ++ toString resS.status ++ "): "
              ++ resS.bodyText) ∧
    generateNDVIImageHandle resP =
      .error ("Sentinel Hub Process API failed (" ++ toString resP.status ++ "): "
              ++ resP.bodyText) ∧
    generateTrueColorImageHandle resP2 =
      .error ("Sentinel Hub Process API failed (" ++ toString resP2.status ++ "): "
              ++ resP2.bodyText) := by
  refine ⟨?_, ?_, ?_, ?_, ?_, ?_⟩
  · simp [lookupLocationHandle, hG]
  · cases cached with
    | none => simp [getAccessToken, freshTokenExchange, hA]
    | some t =>
      have hn : ¬ (now + 60 < t.exp) := not_lt.mpr (hcache t rfl)
      simp [getAccessToken, if_neg hn, freshTokenExchange, hA]
  · simp [searchSatelliteImagesHandle, hC]
  · simp [getVegetationStatsHandle, hS]
  · simp [generateNDVIImageHandle, hP]
  · simp [generateTrueColorImageHandle, hP2]

/-- Concrete failed responses for the C8 witness. -/
def authRes503 : HttpResponse TokenResponse :=
  { ok := false, status := 503, bodyText := "unavailable"
    json := { access_token := "", expires_in := none } }

/-- Concrete failed catalog response for the C8 witness. -/
def catalogRes500 : HttpResponse CatalogJson :=
  { ok := false, status := 500, bodyText := "boom", json := { features := none } }

/-- Concrete failed statistics response for the C8 witness. -/
def statsRes400 : HttpResponse VegetationStatsResponse :=
  { ok := false, status := 400, bodyText := "bad request", json := { status := "", data := [] } }

/-- Concrete failed renderer response for the C8 witness. -/
def processRes500 : HttpResponse (List Nat) :=
  { ok := false, status := 500, bodyText := "render error", json := [] }

/-- Witness for C8's amended claim at concrete failed responses for all
five wrappers. -/
theorem provider_http_failure_signals_witness :
    lookupLocationHandle (fun _ => none) "Iowa" geocoderRes500 = .ok none ∧
    (getAccessToken none 1000 authRes503 (fun _ => 0)).result =
      .error ("Sentinel Hub auth failed (" ++ toString authRes503.status ++ "): "
              ++ authRes503.bodyText) ∧
    searchSatelliteImagesHandle catalogRes500 =
      .error ("Sentinel Hub Catalog search failed (" ++ toString catalogRes500.status ++ "): "
              ++ catalogRes500.bodyText) ∧
    getVegetationStatsHandle statsRes400 =
      .error ("Sentinel Hub Statistical API failed (" ++ toString statsRes400.status ++ "): "
              ++ statsRes400.bodyText) ∧
    generateNDVIImageHandle processRes500 =
      .error ("Sentinel Hub Process API failed (" ++ toString processRes500.status ++ "): "
              ++ processRes500.bodyText) ∧
    generateTrueColorImageHandle processRes500 =
      .error ("Sentinel Hub Process API failed (" ++ toString processRes500.status ++ "): "
              ++ processRes500.bodyText) :=
  provider_http_failure_signals (fun _ => none) "Iowa" (fun _ => 0) none 1000
    geocoderRes500 authRes503 catalogRes500 statsRes400 processRes500 processRes500
    rfl rfl rfl rfl rfl rfl (fun t ht => nomatch ht)

/- ----------------------------------------------------------------------
Rule-based intent parser (src/unnamed/part_003, lines 94–161)
---------------------------------------------------------------------- -/

/-- ECMAScript `\w`: ASCII letters, digits and underscore. -/
def isWordChar (c : Char) : Bool := c.isAlphanum || c == '_'

/-- ECMAScript `\b` on the left edge of a digit: satisfied at the start
of input or after a non-word character. -/
def boundaryBeforeOk (prev : Option Char) : Bool :=
  match prev with
  | none => true
  | some c => !isWordChar c

/-- ECMAScript `\b` on the right edge of a digit: satisfied at the end
of input or before a non-word character. -/
def boundaryAfterOk (rest : List Char) : Bool :=
  match rest with
  | [] => true
  | c :: _ => !isWordChar c

/-- Scanner realizing the global `exec` loop over
`DATE_REGEX = /\b(\d{4}-\d{2}-\d{2})\b/g` (part_003, lines 100 and
116–124): at each position try to match a boundary-delimited
`dddd-dd-dd` block; on success emit it and continue after it
(non-overlapping matches), otherwise advance one character.  `prev` is
the character before the current position, for the left boundary. -/
def extractDatesAux : Option Char → List Char → List String
  | _, [] => []
  | prev, a :: b :: c :: d :: e :: f :: g :: h :: i :: j :: rest =>
    if a.isDigit && b.isDigit && c.isDigit && d.isDigit && e == '-' &&
       f.isDigit && g.isDigit && h == '-' && i.isDigit && j.isDigit &&
       boundaryBeforeOk prev && boundaryAfterOk rest then
      String.mk [a, b, c, d, e, f, g, h, i, j] :: extractDatesAux (some j) rest
    else
      extractDatesAux (some a) (b :: c :: d :: e :: f :: g :: h :: i :: j :: rest)
  | prev, a :: rest => extractDatesAux (some a) rest

/-- Embeds `extractDates` (part_003, lines 116–124). -/
def extractDates (text : String) : List String :=
  extractDatesAux none text.toList

/-- Numeric value of a digit run (digits are guaranteed by the callers'
`takeWhile Char.isDigit`). -/
def digitsToNat (ds : List Char) : Nat :=
  ds.foldl (fun acc c => acc * 10 + (c.toNat - '0'.toNat)) 0

/-- Greedy scan of one `-?\d+\.?\d*` number group of
`BBOX_REGEX` (part_003, line 99), returning its JavaScript `Number`
value and the remaining input.  Greedy scanning is equivalent to the
backtracking regex here because giving digits back can never help the
following `\s*,\s*` continuation match.  The matched shapes always
parse as numbers, so the source's dead `Number.isNaN` guard
(part_003, line 112) has no arm to model.  The value
`intpart.fracpart` is built as the exact rational
`(intpart * 10^k + fracpart) / 10^k` (`k` fraction digits); no
arithmetic is performed on it afterwards. -/
def scanNumber (l : List Char) : Option (ℚ × List Char) :=
  let step : Bool × List Char :=
    match l with
    | '-' :: rest => (true, rest)
    | _ => (false, l)
  let neg := step.1
  let l1 := step.2
  let intDigits := l1.takeWhile Char.isDigit
  let l2 := l1.dropWhile Char.isDigit
  if intDigits.isEmpty then none
  else
    let frac : List Char × List Char :=
      match l2 with
      | '.' :: r => (r.takeWhile Char.isDigit, r.dropWhile Char.isDigit)
      | _ => ([], l2)
    let q : ℚ :=
      Rat.divInt
        (Int.ofNat (digitsToNat intDigits * 10 ^ frac.1.length + digitsToNat frac.1))
        (Int.ofNat (10 ^ frac.1.length))
    some (if neg then -q else q, frac.2)

/-- `\s*`: drop ECMAScript whitespace. -/
def skipWs (l : List Char) : List Char := l.dropWhile Char.isWhitespace

/-- One `\s*,\s*` separator of `BBOX_REGEX`. -/
def scanComma (l : List Char) : Option (List Char) :=
  match skipWs l with
  | ',' :: r => some (skipWs r)
  | _ => none

/-- Attempt `BBOX_REGEX` at one fixed position: four comma-separated
number groups.  The source destructures the four captures as
`[minLon, minLat, maxLon, maxLat]` (part_003, line 111). -/
def bboxAt (l : List Char) : Option BBox :=
  (scanNumber l).bind fun p1 =>
  (scanComma p1.2).bind fun r2 =>
  (scanNumber r2).bind fun p2 =>
  (scanComma p2.2).bind fun r4 =>
  (scanNumber r4).bind fun p3 =>
  (scanComma p3.2).bind fun r6 =>
  (scanNumber r6).map fun p4 =>
  { minLon := p1.1, minLat := p2.1, maxLon := p3.1, maxLat := p4.1 }

/-- `text.match(BBOX_REGEX)`: first match over all start positions,
left to right. -/
def extractBboxAux : List Char → Option BBox
  | [] => none
  | c :: cs =>
    match bboxAt (c :: cs) with
    | some b => some b
    | none => extractBboxAux cs

/-- Embeds `extractBbox` (part_003, lines 108–114). -/
def extractBbox (text : String) : Option BBox :=
  extractBboxAux text.toList

/-- `String.prototype.includes` on character lists. -/
def listIncludes (sub : List Char) : List Char → Bool
  | [] => sub.isEmpty
  | c :: cs => sub.isPrefixOf (c :: cs) || listIncludes sub cs

/-- `lower.includes(kw)`. -/
def strIncludes (s kw : String) : Bool := listIncludes kw.toList s.toList

/-- ASCII lower-casing of one character (`String.prototype.toLowerCase`
restricted to ASCII, all the parser's keywords are ASCII). -/
def asciiToLower (c : Char) : Char :=
  if 'A' ≤ c && c ≤ 'Z' then Char.ofNat (c.toNat + 32) else c

/-- `text.toLowerCase()`. -/
def jsToLowerCase (s : String) : String := String.mk (s.toList.map asciiToLower)

/-- `String.prototype.trim`: strip whitespace from both ends. -/
def jsTrim (s : String) : String :=
  String.mk (((s.toList.dropWhile Char.isWhitespace).reverse.dropWhile
    Char.isWhitespace).reverse)

/-- Parsed intent (`ParsedIntent` minus its `null` arm, which is the
`none` of the surrounding `Option`).  The source's `from`/`to` fields
are `fromDate`/`toDate` here (`from` is a Lean keyword). -/
inductive ParsedAction where
  | search (bbox : BBox) (fromDate : String) (toDate : String)
  | ndviImage (bbox : BBox) (date : String)
  | stats (bbox : BBox) (date : String)
deriving DecidableEq

/-- The third and fourth branches of `parseUserIntent` (part_003,
lines 150–158): stats keywords, then the ndvi-image fallback, then
`null`; factored out because the source reaches them both when fewer
than two dates are present and when the search keywords are absent. -/
def statsOrFallbackIntent (lower : String) (bbox : BBox) (d0 : String) :
    Option ParsedAction :=
  if strIncludes lower "stats" || strIncludes lower "statistics" then
    some (.stats bbox d0)
  else if strIncludes lower "show" || strIncludes lower "for" || strIncludes lower "image" then
    some (.ndviImage bbox d0)
  else
    none

/-- The branch logic of `parseUserIntent` (part_003, lines 136–160)
over its three locals `lower`, `bbox` and `dates` (lines 131–133): the
source's four guarded branches in order.  The search branch swaps the
first two dates into ascending order
(`dates[0] < dates[1] ? [dates[0], dates[1]] : [dates[1], dates[0]]`). -/
def parseUserIntentCore (lower : String) (bboxOpt : Option BBox)
    (dates : List String) : Option ParsedAction :=
  match bboxOpt, dates with
  | some bbox, d0 :: drest =>
    if strIncludes lower "ndvi" || strIncludes lower "vegetation" then
      some (.ndviImage bbox d0)
    else
      match drest with
      | d1 :: _ =>
        if strIncludes lower "search" || strIncludes lower "find" ||
           (strIncludes lower "show" && strIncludes lower "imagery") then
          if jsStringLt d0 d1 then some (.search bbox d0 d1)
          else some (.search bbox d1 d0)
        else
          statsOrFallbackIntent lower bbox d0
      | [] => statsOrFallbackIntent lower bbox d0
  | _, _ => none

/-- Embeds `parseUserIntent` (part_003, lines 130–161): lower-cased
trimmed text for the keyword tests, bbox and dates extracted from the
raw text, then the guarded branches of `parseUserIntentCore`. -/
def parseUserIntent (text : String) : Option ParsedAction :=
  parseUserIntentCore (jsTrim (jsToLowerCase text)) (extractBbox text) (extractDates text)

theorem statsOrFallbackIntent_ne_search (lower : String) (bbox bb2 : BBox)
    (d0 a b : String) :
    statsOrFallbackIntent lower bbox d0 ≠ some (.search bb2 a b) := by
  unfold statsOrFallbackIntent
  split_ifs <;> simp

theorem parseUserIntentCore_search_ordered (lower : String) (bboxOpt : Option BBox)
    (dates : List String) (bbox : BBox) (d1 d2 : String)
    (h : parseUserIntentCore lower bboxOpt dates = some (.search bbox d1 d2)) :
    d1 ≤ d2 := by
  unfold parseUserIntentCore at h
  split at h
  · split at h
    · exact absurd h (by simp)
    · split at h
      · split at h
        · split at h
          · rename_i hlt
            simp only [Option.some.injEq, ParsedAction.search.injEq] at h
            obtain ⟨-, h1, h2⟩ := h
            subst h1
            subst h2
            exact le_of_lt ((jsStringLt_iff _ _).mp hlt)
          · rename_i hlt
            simp only [Option.some.injEq, ParsedAction.search.injEq] at h
            obtain ⟨-, h1, h2⟩ := h
            subst h1
            subst h2
            exact le_of_not_lt (fun hl => hlt ((jsStringLt_iff _ _).mpr hl))
        · exact absurd h (statsOrFallbackIntent_ne_search _ _ _ _ _ _)
      · exact absurd h (statsOrFallbackIntent_ne_search _ _ _ _ _ _)
  · exact absurd h (by simp)

/-- Claim C10: whenever `parseUserIntent` classifies a text as a search
intent, the returned date range is ordered: `from ≤ to` in ISO
(lexicographic) order, because the two extracted dates are swapped when
they occur in descending order in the text. -/
theorem parseUserIntent_search_range_ordered (text : String) (bbox : BBox)
    (d1 d2 : String)
    (h : parseUserIntent text = some (.search bbox d1 d2)) :
    d1 ≤ d2 :=
  parseUserIntentCore_search_ordered (jsTrim (jsToLowerCase text)) (extractBbox text)
    (extractDates text) bbox d1 d2 h

/-- Witness for C10: a concrete search request whose two dates appear in
descending order is parsed with them swapped into ascending order. -/
theorem parseUserIntent_search_range_ordered_witness :
    parseUserIntent "find 1,2,3,4 2024-05-10 2024-03-01" =
      some (.search { minLon := 1, minLat := 2, maxLon := 3, maxLat := 4 }
        "2024-03-01" "2024-05-10") ∧
    ("2024-03-01" : String) ≤ "2024-05-10" :=
  ⟨by decide,
   parseUserIntent_search_range_ordered "find 1,2,3,4 2024-05-10 2024-03-01"
     { minLon := 1, minLat := 2, maxLon := 3, maxLat := 4 }
     "2024-03-01" "2024-05-10" (by decide)⟩
